import Mathlib

/-!
Verification of the directory-tree validator `02a_check_events_01.py`.

The script only observes the filesystem through `os.path.exists` and
`glob.glob`, so the filesystem is embedded as an abstract state `FS`
providing those two primitives.  Python's `os.path.exists` returns `False`
not only when the path is absent but also when the underlying `stat` call
fails for any other reason (e.g. permission denial); to make that visible
we give each path a three-valued status and let `os_path_exists` answer
`true` exactly for `present`.
-/

namespace CheckEvents

/-- Status of a path in the modelled filesystem: it exists and is
accessible, it does not exist, or accessing it fails for a reason other
than non-existence (e.g. permission denied). -/
inductive PathStatus where
  | present
  | absent
  | accessDenied
deriving DecidableEq, Repr

/-- Abstract filesystem state: the per-path status queried by
`os.path.exists`, and the result of `glob.glob` for each pattern. -/
structure FS where
  status : String → PathStatus
  globMatch : String → List String

/-- `os.path.exists`: true only for an accessible, existing path; any
OSError (permission denied, ...) is swallowed and reported as `False`. -/
def os_path_exists (fs : FS) (p : String) : Bool :=
  fs.status p == PathStatus.present

/-- `os.path.join a b` for a relative component `b` (the only way the
script uses it): `a ++ "/" ++ b`. -/
def os_path_join (a b : String) : String := a ++ "/" ++ b

/-- `os.path.basename`: the part of the path after the last `/`
(empty if the path ends in `/`). -/
def os_path_basename (p : String) : String :=
  ⟨(p.data.reverse.takeWhile (fun c => !(c == '/'))).reverse⟩

/-- Second half of `os.path.dirname`: given `head = p[:i]` (the prefix of
the path up to and including the last `/`), return it with trailing
slashes stripped unless it is empty or all slashes. -/
def dirname_head (hd : List Char) : String :=
  if hd.isEmpty then ""
  else if hd.all (fun c => c == '/') then ⟨hd⟩
  else ⟨(hd.reverse.dropWhile (fun c => c == '/')).reverse⟩

/-- `os.path.dirname` (posixpath semantics): everything before the last
`/`, with trailing slashes stripped unless the result is all slashes. -/
def os_path_dirname (p : String) : String :=
  dirname_head (p.data.reverse.dropWhile (fun c => !(c == '/'))).reverse

/-- Python's substring test `sub in s`: some suffix of `s` has `sub` as a
prefix. -/
def str_contains (s sub : String) : Bool :=
  s.data.tails.any (fun t => sub.data.isPrefixOf t)

/-- `check_directory_structure(base_dir, workflow)`: fails when the base
directory or `02_mg_processes` is missing; a missing `02_mg_processes_2`
only prints a warning and does not affect the result. -/
def check_directory_structure (fs : FS) (base_dir : String) : Bool :=
  if !(os_path_exists fs base_dir) then false
  else if !(os_path_exists fs (os_path_join base_dir "02_mg_processes")) then false
  else true

/-- `check_signal_directories(mg_processes_dir)`: the exact `signal_sm`
directory (when it exists), the `signal_sm_*` glob, and, for each
`signal_supp_*` directory, its `morphing_basis_vector_*` subdirectories
(the `signal_supp_*` directory itself is never added).  The Python
function returns `False` instead of the empty list; callers only test
truthiness, so the empty list models that case. -/
def check_signal_directories (fs : FS) (mg_processes_dir : String) : List String :=
  let signal_sm_exact := os_path_join mg_processes_dir "signal_sm"
  let exact_part := if os_path_exists fs signal_sm_exact then [signal_sm_exact] else []
  let signal_sm_dirs := fs.globMatch (os_path_join mg_processes_dir "signal_sm_*")
  let signal_supp_dirs := fs.globMatch (os_path_join mg_processes_dir "signal_supp_*")
  let signal_supp_process_dirs :=
    signal_supp_dirs.flatMap (fun signal_supp_dir =>
      fs.globMatch (os_path_join signal_supp_dir "morphing_basis_vector_*"))
  exact_part ++ signal_sm_dirs ++ signal_supp_process_dirs

/-- `check_background_directories(mg_processes_2_dir)`: empty when the
background root is missing (warning only) or when the `background_*`
glob is empty. -/
def check_background_directories (fs : FS) (mg_processes_2_dir : String) : List String :=
  if !(os_path_exists fs mg_processes_2_dir) then []
  else fs.globMatch (os_path_join mg_processes_2_dir "background_*")

/-- The `required_files` list of `check_required_files_in_directory`
(defined inside the per-run loop in the source, but constant). -/
def required_files : List String := ["unweighted_events.lhe"]

/-- The `optional_files` list of `check_required_files_in_directory`
(constant; these are only ever printed when present, never recorded). -/
def optional_files : List String :=
  ["unweighted_events.lhe.gz",
   "tag_1_pythia8_events.hepmc.gz",
   "tag_1_pythia8_events_delphes.root"]

/-- The required-file misses contributed by one run directory: for each
required file that does not exist, the entry `"<run_name>/<file_name>"`.
The optional-file loop in the source only prints and is omitted. -/
def run_missing_files (fs : FS) (run_dir : String) : List String :=
  required_files.filterMap (fun file_name =>
    if os_path_exists fs (os_path_join run_dir file_name) then none
    else some (os_path_basename run_dir ++ "/" ++ file_name))

/-- The `for run_dir in run_dirs` loop: the per-run misses appended in
run order. -/
def runs_missing (fs : FS) : List String → List String
  | [] => []
  | run_dir :: rest => run_missing_files fs run_dir ++ runs_missing fs rest

/-- `check_required_files_in_directory(process_dir, process_type)`:
`["Events/"]` when the `Events` subdirectory is missing, `["Events/run_*"]`
when no `run_*` subdirectory matches, otherwise the accumulated per-run
misses.  The `process_type` argument is accepted but never used, exactly
as in the source. -/
def check_required_files_in_directory (fs : FS) (process_dir : String)
    (process_type : String) : List String :=
  let events_dir := os_path_join process_dir "Events"
  if !(os_path_exists fs events_dir) then ["Events/"]
  else
    let run_dirs := fs.globMatch (os_path_join events_dir "run_*")
    if run_dirs.isEmpty then ["Events/run_*"]
    else runs_missing fs run_dirs

/-- The display name computed for a signal directory inside
`check_all_processes`: when the full path contains the substring
`morphing_basis_vector`, `<basename of parent>/<basename>`, otherwise
just the basename. -/
def signal_process_name (signal_dir : String) : String :=
  if str_contains signal_dir "morphing_basis_vector" then
    os_path_basename (os_path_dirname signal_dir) ++ "/" ++ os_path_basename signal_dir
  else os_path_basename signal_dir

/-- The per-process outcomes traversed by `check_all_processes`: the
signal loop followed by the background loop, each pairing the printed
process name with its missing-file list. -/
def process_outcomes (fs : FS) (signal_dirs background_dirs : List String) :
    List (String × List String) :=
  signal_dirs.map (fun d => (signal_process_name d,
    check_required_files_in_directory fs d "signal"))
  ++ background_dirs.map (fun d => (os_path_basename d,
    check_required_files_in_directory fs d "background"))

/-- `total_with_issues`: how many processed directories had a non-empty
missing-file list. -/
def total_with_issues (outcomes : List (String × List String)) : Nat :=
  outcomes.countP (fun o => !o.2.isEmpty)

/-- `check_all_processes(signal_dirs, background_dirs)`: true iff no
checked process accumulated missing files. -/
def check_all_processes (fs : FS) (signal_dirs background_dirs : List String) : Bool :=
  total_with_issues (process_outcomes fs signal_dirs background_dirs) == 0

/-- `check_expected_structure_for_delphes(workflow)`: fails only when the
configured input root (`workflow["delphes"]["input_dir_prefix"]`) does not
exist.  The loop over `signal_sm` / `signal_supp` / `background` and the
`mb_vector_*` enumeration only print; they never change the result. -/
def check_expected_structure_for_delphes (fs : FS) (input_dir_pref : String) : Bool :=
  if !(os_path_exists fs input_dir_pref) then false
  else true

/-- Result of one `main` run: the exit status, and the list of process
directories that were actually handed to
`check_required_files_in_directory` (empty on the early fatal returns).
The second component makes the script's observable checking activity
explicit; the source communicates it through console output. -/
structure MainResult where
  exitCode : Nat
  checked : List String
deriving DecidableEq, Repr

/-- `main()`: the configuration load is modelled by `config`
(`none` = the `workflow.yaml` load raised; `some p` = it yielded
`input_dir_prefix = p`).  Mirrors the source's early returns: load
failure, failed directory-structure check, and empty signal-directory
discovery each exit with status 1 before any per-process validation. -/
def main (fs : FS) (config : Option String) (base_dir : String) : MainResult :=
  match config with
  | none => ⟨1, []⟩
  | some input_dir_pref =>
    if !(check_directory_structure fs base_dir) then ⟨1, []⟩
    else
      let signal_dirs := check_signal_directories fs (os_path_join base_dir "02_mg_processes")
      if signal_dirs.isEmpty then ⟨1, []⟩
      else
        let background_dirs :=
          check_background_directories fs (os_path_join base_dir "02_mg_processes_2")
        let all_files_ok := check_all_processes fs signal_dirs background_dirs
        let delphes_structure_ok := check_expected_structure_for_delphes fs input_dir_pref
        if all_files_ok && delphes_structure_ok then ⟨0, signal_dirs ++ background_dirs⟩
        else ⟨1, signal_dirs ++ background_dirs⟩

/-! ### Helper lemmas about the path primitives -/

/-- The character list of `"/"`. -/
theorem slash_data : ("/" : String).data = ['/'] := rfl

/-- Rebuilding a string from its character list is the identity. -/
theorem string_mk_data (s : String) : String.mk s.data = s := by
  cases s
  rfl

/-- `takeWhile` over `l ++ b :: r` stops exactly at `b` when every element
of `l` satisfies the predicate and `b` does not. -/
theorem takeWhile_append_all {p : Char → Bool} (l : List Char) (b : Char) (r : List Char)
    (hl : ∀ a ∈ l, p a = true) (hb : p b = false) :
    (l ++ b :: r).takeWhile p = l := by
  induction l with
  | nil => simp [List.takeWhile_cons, hb]
  | cons a l ih =>
    have ha : p a = true := hl a (by simp)
    simp only [List.cons_append, List.takeWhile_cons, ha, if_true]
    have := ih (fun x hx => hl x (by simp [hx]))
    simp [this]

/-- `dropWhile` over `l ++ b :: r` drops exactly `l` when every element of
`l` satisfies the predicate and `b` does not. -/
theorem dropWhile_append_all {p : Char → Bool} (l : List Char) (b : Char) (r : List Char)
    (hl : ∀ a ∈ l, p a = true) (hb : p b = false) :
    (l ++ b :: r).dropWhile p = b :: r := by
  induction l with
  | nil => simp [List.dropWhile_cons, hb]
  | cons a l ih =>
    have ha : p a = true := hl a (by simp)
    simp only [List.cons_append, List.dropWhile_cons, ha, if_true]
    exact ih (fun x hx => hl x (by simp [hx]))

/-- The character list of `x ++ "/" ++ y`. -/
theorem join_data (x y : String) : (x ++ "/" ++ y).data = x.data ++ '/' :: y.data := by
  simp [String.data_append, slash_data]

/-- The basename of `x ++ "/" ++ y` is `y` when `y` contains no slash. -/
theorem basename_append (x y : String) (hy : ∀ c ∈ y.data, (c == '/') = false) :
    os_path_basename (x ++ "/" ++ y) = y := by
  unfold os_path_basename
  rw [join_data]
  have hrev : (x.data ++ '/' :: y.data).reverse = y.data.reverse ++ '/' :: x.data.reverse := by
    simp
  rw [hrev, takeWhile_append_all (p := fun c => !(c == '/')) y.data.reverse '/' x.data.reverse
    (fun a ha => by simp [hy a (List.mem_reverse.mp ha)]) (by decide)]
  simp [string_mk_data]

/-- The dirname of `x ++ "/" ++ y` is `x` when `y` contains no slash and
`x` is nonempty and does not end in a slash. -/
theorem dirname_append (x y : String) (hx : x.data.reverse.headD '/' ≠ '/')
    (hy : ∀ c ∈ y.data, (c == '/') = false) :
    os_path_dirname (x ++ "/" ++ y) = x := by
  obtain ⟨a, l, hal⟩ : ∃ a l, x.data.reverse = a :: l := by
    cases h : x.data.reverse with
    | nil => rw [h] at hx; simp at hx
    | cons a l => exact ⟨a, l, rfl⟩
  have ha : a ≠ '/' := by rw [hal] at hx; simpa using hx
  have hax : a ∈ x.data := List.mem_reverse.mp (by rw [hal]; simp)
  unfold os_path_dirname
  rw [join_data]
  have hrev : (x.data ++ '/' :: y.data).reverse = y.data.reverse ++ '/' :: x.data.reverse := by
    simp
  rw [hrev, dropWhile_append_all (p := fun c => !(c == '/')) y.data.reverse '/' x.data.reverse
    (fun c hc => by simp [hy c (List.mem_reverse.mp hc)]) (by decide)]
  have hhd : ('/' :: x.data.reverse).reverse = x.data ++ ['/'] := by simp
  rw [hhd]
  unfold dirname_head
  have hne : (x.data ++ ['/']).isEmpty = false := by
    simp [List.isEmpty_iff]
  have hnall : (x.data ++ ['/']).all (fun c => c == '/') = false := by
    rw [List.all_eq_false]
    exact ⟨a, by simp [hax], by simp [ha]⟩
  rw [hne, hnall]
  simp only [Bool.false_eq_true, if_false]
  have hdw : ((x.data ++ ['/']).reverse).dropWhile (fun c => c == '/') = x.data.reverse := by
    have : (x.data ++ ['/']).reverse = '/' :: x.data.reverse := by simp
    rw [this, List.dropWhile_cons]
    simp only [beq_self_eq_true, if_true]
    rw [hal, List.dropWhile_cons]
    simp [ha]
  rw [hdw]
  simp [string_mk_data]

/-- A substring of `y` is a substring of `x ++ y`. -/
theorem str_contains_append_left (x y sub : String) (h : str_contains y sub = true) :
    str_contains (x ++ y) sub = true := by
  unfold str_contains at h ⊢
  rw [List.any_eq_true] at h ⊢
  obtain ⟨t, ht, hp⟩ := h
  refine ⟨t, ?_, hp⟩
  rw [List.mem_tails] at ht ⊢
  rw [String.data_append]
  exact ht.trans (List.suffix_append x.data y.data)

/-- The last character of a string (a space for the empty string). -/
def strLast (s : String) : Char := s.data.getLastD ' '

/-- The last character of `x ++ y` is the last character of `y` when `y`
is nonempty. -/
theorem strLast_append (x y : String) (hy : y.data ≠ []) :
    strLast (x ++ y) = strLast y := by
  unfold strLast
  rw [String.data_append, List.getLastD_eq_getLast?, List.getLastD_eq_getLast?,
    List.getLast?_append]
  cases h : y.data.getLast? with
  | none => exact absurd (List.getLast?_eq_none_iff.mp h) hy
  | some c => simp [Option.or]

/-- Collapse access-denied paths into absent ones: the filesystem the
script effectively sees, since `os.path.exists` answers `False` for
both. -/
def collapseAccess (fs : FS) : FS where
  status := fun p => match fs.status p with
    | PathStatus.present => PathStatus.present
    | _ => PathStatus.absent
  globMatch := fs.globMatch

/-- `os.path.exists` cannot tell an access-denied path from an absent
one. -/
theorem os_path_exists_collapse (fs : FS) (p : String) :
    os_path_exists (collapseAccess fs) p = os_path_exists fs p := by
  cases h : fs.status p <;> simp [os_path_exists, collapseAccess, h]

/-- Per-run misses are unchanged by collapsing access-denied paths. -/
theorem run_missing_files_collapse (fs : FS) (r : String) :
    run_missing_files (collapseAccess fs) r = run_missing_files fs r := by
  simp [run_missing_files, os_path_exists_collapse]

/-- Accumulated misses are unchanged by collapsing access-denied paths. -/
theorem runs_missing_collapse (fs : FS) (l : List String) :
    runs_missing (collapseAccess fs) l = runs_missing fs l := by
  induction l with
  | nil => rfl
  | cons r rest ih => simp [runs_missing, run_missing_files_collapse, ih]

/-- The whole per-directory check is unchanged by collapsing
access-denied paths into absent ones. -/
theorem check_collapse (fs : FS) (process_dir process_type : String) :
    check_required_files_in_directory (collapseAccess fs) process_dir process_type
      = check_required_files_in_directory fs process_dir process_type := by
  simp only [check_required_files_in_directory, os_path_exists_collapse,
    runs_missing_collapse]
  rfl

/-- Any element of the per-run miss list is the single required-file
entry for that run. -/
theorem mem_run_missing_files (fs : FS) (r item : String)
    (h : item ∈ run_missing_files fs r) :
    item = os_path_basename r ++ "/" ++ "unweighted_events.lhe" := by
  unfold run_missing_files required_files at h
  rw [List.mem_filterMap] at h
  obtain ⟨f, hf, hsome⟩ := h
  have hf' : f = "unweighted_events.lhe" := by simpa using hf
  subst hf'
  split at hsome
  · simp at hsome
  · exact (Option.some.inj hsome).symm

/-- Any accumulated miss comes from some run directory of the list. -/
theorem mem_runs_missing (fs : FS) (l : List String) (item : String)
    (h : item ∈ runs_missing fs l) :
    ∃ r ∈ l, item ∈ run_missing_files fs r := by
  induction l with
  | nil => simp [runs_missing] at h
  | cons r rest ih =>
    unfold runs_missing at h
    rw [List.mem_append] at h
    cases h with
    | inl h => exact ⟨r, by simp, h⟩
    | inr h =>
      obtain ⟨r', hr', hi⟩ := ih h
      exact ⟨r', by simp [hr'], hi⟩

/-- Every entry of a per-directory outcome is `"Events/"`,
`"Events/run_*"`, or a `"<run_name>/unweighted_events.lhe"` entry. -/
theorem mem_check_shape (fs : FS) (d t item : String)
    (h : item ∈ check_required_files_in_directory fs d t) :
    item = "Events/" ∨ item = "Events/run_*" ∨
      ∃ r, item = os_path_basename r ++ "/" ++ "unweighted_events.lhe" := by
  simp only [check_required_files_in_directory] at h
  split at h
  · left
    simpa using h
  · split at h
    · right; left
      simpa using h
    · right; right
      obtain ⟨r, _, hi⟩ := mem_runs_missing fs _ item h
      exact ⟨r, mem_run_missing_files fs r item hi⟩

/-- `check_all_processes` passes iff every signal and every background
directory has an empty missing-file list. -/
theorem check_all_processes_iff (fs : FS) (sd bd : List String) :
    check_all_processes fs sd bd = true ↔
      ((∀ d ∈ sd, check_required_files_in_directory fs d "signal" = [])
       ∧ (∀ d ∈ bd, check_required_files_in_directory fs d "background" = [])) := by
  unfold check_all_processes total_with_issues
  rw [beq_iff_eq, List.countP_eq_zero]
  constructor
  · intro h
    refine ⟨fun d hd => ?_, fun d hd => ?_⟩
    · have hm : (signal_process_name d, check_required_files_in_directory fs d "signal")
          ∈ process_outcomes fs sd bd := by
        unfold process_outcomes
        exact List.mem_append_left _ (List.mem_map_of_mem _ hd)
      simpa [List.isEmpty_iff] using h _ hm
    · have hm : (os_path_basename d, check_required_files_in_directory fs d "background")
          ∈ process_outcomes fs sd bd := by
        unfold process_outcomes
        exact List.mem_append_right _ (List.mem_map_of_mem _ hd)
      simpa [List.isEmpty_iff] using h _ hm
  · rintro ⟨h1, h2⟩ a ha
    unfold process_outcomes at ha
    rw [List.mem_append] at ha
    cases ha with
    | inl ha =>
      obtain ⟨d, hd, rfl⟩ := List.mem_map.mp ha
      simp [List.isEmpty_iff, h1 d hd]
    | inr ha =>
      obtain ⟨d, hd, rfl⟩ := List.mem_map.mp ha
      simp [List.isEmpty_iff, h2 d hd]

/-! ### Concrete filesystem states used as witnesses -/

/-- A fully healthy tree: base `b`, one `signal_sm` process with one run
holding the required file, no background root, and an existing
downstream input root `din`. -/
def fsGood : FS where
  status := fun p =>
    if p ∈ ["b", "b/02_mg_processes", "b/02_mg_processes/signal_sm",
            "b/02_mg_processes/signal_sm/Events",
            "b/02_mg_processes/signal_sm/Events/run_01",
            "b/02_mg_processes/signal_sm/Events/run_01/unweighted_events.lhe",
            "din"] then PathStatus.present else PathStatus.absent
  globMatch := fun pat =>
    if pat = "b/02_mg_processes/signal_sm/Events/run_*" then
      ["b/02_mg_processes/signal_sm/Events/run_01"]
    else []

/-- A completely empty filesystem. -/
def fsEmpty : FS where
  status := fun _ => PathStatus.absent
  globMatch := fun _ => []

/-- Process `p` has no `Events` directory; process `q` has an `Events`
directory with no `run_*` subdirectory. -/
def fsBare : FS where
  status := fun p => if p = "q/Events" then PathStatus.present else PathStatus.absent
  globMatch := fun _ => []

/-- Process `w` has two run directories, both lacking the required
file. -/
def fsTwoRuns : FS where
  status := fun p => if p = "w/Events" then PathStatus.present else PathStatus.absent
  globMatch := fun pat =>
    if pat = "w/Events/run_*" then ["w/Events/run_01", "w/Events/run_02"] else []

/-- Signal root `m` holding one `signal_supp_A` directory with two
morphing-basis-vector children and nothing else. -/
def fsSupp : FS where
  status := fun _ => PathStatus.absent
  globMatch := fun pat =>
    if pat = "m/signal_supp_*" then ["m/signal_supp_A"]
    else if pat = "m/signal_supp_A/morphing_basis_vector_*" then
      ["m/signal_supp_A/morphing_basis_vector_1", "m/signal_supp_A/morphing_basis_vector_2"]
    else []

/-- Only the downstream input root `din` exists; none of its expected
category subdirectories do. -/
def fsDelphesOnly : FS where
  status := fun p => if p = "din" then PathStatus.present else PathStatus.absent
  globMatch := fun _ => []

/-- Process `p` with one run directory whose required file is simply
absent. -/
def fsFileAbsent : FS where
  status := fun p =>
    if p ∈ ["p/Events", "p/Events/run_01"] then PathStatus.present else PathStatus.absent
  globMatch := fun pat => if pat = "p/Events/run_*" then ["p/Events/run_01"] else []

/-- Same tree as `fsFileAbsent`, except that the required file is
inaccessible (permission denied) rather than absent. -/
def fsFileDenied : FS where
  status := fun p =>
    if p ∈ ["p/Events", "p/Events/run_01"] then PathStatus.present
    else if p = "p/Events/run_01/unweighted_events.lhe" then PathStatus.accessDenied
    else PathStatus.absent
  globMatch := fun pat => if pat = "p/Events/run_*" then ["p/Events/run_01"] else []

/-- When the startup checks pass (configuration loaded, directory
structure OK, at least one signal directory), `main` reduces to the final
verdict over the discovered directories. -/
theorem main_reduce (fs : FS) (base_dir input_dir_pref : String)
    (hstruct : check_directory_structure fs base_dir = true)
    (hsig : check_signal_directories fs (os_path_join base_dir "02_mg_processes") ≠ []) :
    main fs (some input_dir_pref) base_dir =
      if check_all_processes fs
            (check_signal_directories fs (os_path_join base_dir "02_mg_processes"))
            (check_background_directories fs (os_path_join base_dir "02_mg_processes_2"))
          && check_expected_structure_for_delphes fs input_dir_pref
      then ⟨0, check_signal_directories fs (os_path_join base_dir "02_mg_processes")
              ++ check_background_directories fs (os_path_join base_dir "02_mg_processes_2")⟩
      else ⟨1, check_signal_directories fs (os_path_join base_dir "02_mg_processes")
              ++ check_background_directories fs (os_path_join base_dir "02_mg_processes_2")⟩ := by
  have hne : (check_signal_directories fs (os_path_join base_dir "02_mg_processes")).isEmpty
      = false := by
    simpa [List.isEmpty_iff] using hsig
  simp [main, hstruct, hne]

/-! ### The claims -/

/-- Claim C1: once the run gets past its fatal startup checks
(configuration loaded, base and signal roots present, at least one signal
process discovered), the exit status is 0 iff every checked process
directory — signal and background — has an empty missing-item list and
the downstream-structure check succeeds. -/
theorem c1_exit_zero_iff_all_checks_pass (fs : FS) (base_dir input_dir_pref : String)
    (hstruct : check_directory_structure fs base_dir = true)
    (hsig : check_signal_directories fs (os_path_join base_dir "02_mg_processes") ≠ []) :
    (main fs (some input_dir_pref) base_dir).exitCode = 0 ↔
      ((∀ d ∈ check_signal_directories fs (os_path_join base_dir "02_mg_processes"),
          check_required_files_in_directory fs d "signal" = [])
       ∧ (∀ d ∈ check_background_directories fs (os_path_join base_dir "02_mg_processes_2"),
          check_required_files_in_directory fs d "background" = [])
       ∧ check_expected_structure_for_delphes fs input_dir_pref = true) := by
  rw [main_reduce fs base_dir input_dir_pref hstruct hsig]
  have key : (check_all_processes fs
        (check_signal_directories fs (os_path_join base_dir "02_mg_processes"))
        (check_background_directories fs (os_path_join base_dir "02_mg_processes_2"))
      && check_expected_structure_for_delphes fs input_dir_pref) = true ↔
      ((∀ d ∈ check_signal_directories fs (os_path_join base_dir "02_mg_processes"),
          check_required_files_in_directory fs d "signal" = [])
       ∧ (∀ d ∈ check_background_directories fs (os_path_join base_dir "02_mg_processes_2"),
          check_required_files_in_directory fs d "background" = [])
       ∧ check_expected_structure_for_delphes fs input_dir_pref = true) := by
    rw [Bool.and_eq_true, check_all_processes_iff]
    exact and_assoc
  cases hc : (check_all_processes fs
      (check_signal_directories fs (os_path_join base_dir "02_mg_processes"))
      (check_background_directories fs (os_path_join base_dir "02_mg_processes_2"))
    && check_expected_structure_for_delphes fs input_dir_pref) with
  | false =>
    refine iff_of_false (by simp) (fun hR => ?_)
    have := key.mpr hR
    rw [hc] at this
    exact Bool.false_ne_true this
  | true =>
    exact iff_of_true (by simp) (key.mp hc)

/-- Claim C1 witness: a concrete healthy tree satisfying the startup
hypotheses. -/
theorem c1_witness :
    (main fsGood (some "din") "b").exitCode = 0 ↔
      ((∀ d ∈ check_signal_directories fsGood (os_path_join "b" "02_mg_processes"),
          check_required_files_in_directory fsGood d "signal" = [])
       ∧ (∀ d ∈ check_background_directories fsGood (os_path_join "b" "02_mg_processes_2"),
          check_required_files_in_directory fsGood d "background" = [])
       ∧ check_expected_structure_for_delphes fsGood "din" = true) :=
  c1_exit_zero_iff_all_checks_pass fsGood "b" "din" (by decide) (by decide)

/-- Claim C2 counterexample: a downstream input root that exists but
contains none of `signal_sm`, `signal_supp`, `background` still makes the
downstream-structure check succeed, so the check does not succeed "only
when" all three category directories are present. -/
theorem c2_counterexample :
    check_expected_structure_for_delphes fsDelphesOnly "din" = true
    ∧ os_path_exists fsDelphesOnly (os_path_join "din" "signal_sm") = false
    ∧ os_path_exists fsDelphesOnly (os_path_join "din" "signal_supp") = false
    ∧ os_path_exists fsDelphesOnly (os_path_join "din" "background") = false := by
  decide

/-- Claim C2 (amended): the downstream-structure check succeeds exactly
when the configured downstream input root exists; the three expected
category directories and the `mb_vector_*` count are informational only
and never affect the result. -/
theorem c2_downstream_check_iff_root_exists (fs : FS) (input_dir_pref : String) :
    check_expected_structure_for_delphes fs input_dir_pref = os_path_exists fs input_dir_pref := by
  unfold check_expected_structure_for_delphes
  cases h : os_path_exists fs input_dir_pref <;> simp [h]

/-- Claim C3 counterexample: a run directory whose required file is
access-denied produces exactly the same ordinary missing-file outcome as
one whose required file is absent — nothing is surfaced distinctly and
the access failure is not a separate hard-failure category. -/
theorem c3_counterexample :
    check_required_files_in_directory fsFileDenied "p" "signal"
        = check_required_files_in_directory fsFileAbsent "p" "signal"
    ∧ check_required_files_in_directory fsFileAbsent "p" "signal"
        = ["run_01/unweighted_events.lhe"] := by
  decide

/-- Claim C3 (amended): a filesystem-access error other than
non-existence is treated exactly as non-existence — collapsing every
access-denied path into an absent one leaves every per-directory outcome
unchanged — and it does not prevent validation of the remaining sibling
subtrees: every directory in the checked list contributes its own entry
to the outcomes. -/
theorem c3_access_error_collapsed (fs : FS) (d t : String) (sd bd : List String)
    (hd : d ∈ sd) :
    check_required_files_in_directory (collapseAccess fs) d t
        = check_required_files_in_directory fs d t
    ∧ (signal_process_name d, check_required_files_in_directory fs d "signal")
        ∈ process_outcomes fs sd bd :=
  ⟨check_collapse fs d t, by
    unfold process_outcomes
    exact List.mem_append_left _ (List.mem_map_of_mem _ hd)⟩

/-- Claim C3 witness: the amended statement at the concrete denied-file
tree. -/
theorem c3_witness :
    check_required_files_in_directory (collapseAccess fsFileDenied) "p" "signal"
        = check_required_files_in_directory fsFileDenied "p" "signal"
    ∧ (signal_process_name "p", check_required_files_in_directory fsFileDenied "p" "signal")
        ∈ process_outcomes fsFileDenied ["p"] [] :=
  c3_access_error_collapsed fsFileDenied "p" "signal" ["p"] [] (by decide)

/-- Claim C4: a process directory without an `Events` subdirectory
yields exactly `["Events/"]` (no run directories are consulted); one
whose `Events` exists but matches no `run_*` yields exactly
`["Events/run_*"]`.  In both cases the check returns normally with a
single missing item. -/
theorem c4_missing_events_single_item (fs : FS) (process_dir process_type : String) :
    (os_path_exists fs (os_path_join process_dir "Events") = false →
      check_required_files_in_directory fs process_dir process_type = ["Events/"])
    ∧ (os_path_exists fs (os_path_join process_dir "Events") = true →
      fs.globMatch (os_path_join (os_path_join process_dir "Events") "run_*") = [] →
      check_required_files_in_directory fs process_dir process_type = ["Events/run_*"]) := by
  constructor
  · intro h
    simp [check_required_files_in_directory, h]
  · intro h hg
    simp [check_required_files_in_directory, h, hg]

/-- Claim C4 witness: process `p` lacks `Events`; process `q` has an
empty `Events`. -/
theorem c4_witness :
    check_required_files_in_directory fsBare "p" "signal" = ["Events/"]
    ∧ check_required_files_in_directory fsBare "q" "signal" = ["Events/run_*"] :=
  ⟨(c4_missing_events_single_item fsBare "p" "signal").1 (by decide),
   (c4_missing_events_single_item fsBare "q" "signal").2 (by decide) (by decide)⟩

/-- Claim C5: when every one of the N run directories lacks the required
`unweighted_events.lhe`, the outcome is exactly one
`"<run_name>/unweighted_events.lhe"` entry per run directory, in run
order — N entries in total, pairwise distinct when the run names are. -/
theorem c5_one_missing_entry_per_run (fs : FS) (process_dir process_type : String)
    (rs : List String)
    (hev : os_path_exists fs (os_path_join process_dir "Events") = true)
    (hrs : fs.globMatch (os_path_join (os_path_join process_dir "Events") "run_*") = rs)
    (hne : rs ≠ [])
    (hmiss : ∀ r ∈ rs, os_path_exists fs (os_path_join r "unweighted_events.lhe") = false)
    (hnd : (rs.map os_path_basename).Nodup) :
    check_required_files_in_directory fs process_dir process_type
        = rs.map (fun r => os_path_basename r ++ "/" ++ "unweighted_events.lhe")
    ∧ (check_required_files_in_directory fs process_dir process_type).length = rs.length
    ∧ (check_required_files_in_directory fs process_dir process_type).Nodup := by
  have hrsne : rs.isEmpty = false := by simpa [List.isEmpty_iff] using hne
  have hcheck : check_required_files_in_directory fs process_dir process_type
      = runs_missing fs rs := by
    simp [check_required_files_in_directory, hev, hrs, hrsne]
  have hrm : ∀ l : List String,
      (∀ r ∈ l, os_path_exists fs (os_path_join r "unweighted_events.lhe") = false) →
      runs_missing fs l = l.map (fun r => os_path_basename r ++ "/" ++ "unweighted_events.lhe") := by
    intro l
    induction l with
    | nil => intro _; rfl
    | cons r rest ih =>
      intro hm
      unfold runs_missing
      rw [ih (fun x hx => hm x (by simp [hx]))]
      unfold run_missing_files required_files
      simp [hm r (by simp)]
  refine ⟨by rw [hcheck, hrm rs hmiss], by rw [hcheck, hrm rs hmiss, List.length_map], ?_⟩
  rw [hcheck, hrm rs hmiss]
  have hmm : rs.map (fun r => os_path_basename r ++ "/" ++ "unweighted_events.lhe")
      = (rs.map os_path_basename).map (fun b => b ++ "/" ++ "unweighted_events.lhe") := by
    rw [List.map_map]
    rfl
  rw [hmm]
  refine List.Nodup.map ?_ hnd
  intro a b hab
  have hdata : a.data ++ '/' :: ("unweighted_events.lhe" : String).data
      = b.data ++ '/' :: ("unweighted_events.lhe" : String).data := by
    have := congrArg String.data hab
    rwa [join_data, join_data] at this
  have hd : a.data = b.data := List.append_cancel_right hdata
  calc a = String.mk a.data := (string_mk_data a).symm
    _ = String.mk b.data := by rw [hd]
    _ = b := string_mk_data b

/-- Claim C5 witness: two runs, both lacking the required file, give two
distinct entries. -/
theorem c5_witness :
    check_required_files_in_directory fsTwoRuns "w" "signal"
        = ["w/Events/run_01", "w/Events/run_02"].map
            (fun r => os_path_basename r ++ "/" ++ "unweighted_events.lhe")
    ∧ (check_required_files_in_directory fsTwoRuns "w" "signal").length
        = (["w/Events/run_01", "w/Events/run_02"] : List String).length
    ∧ (check_required_files_in_directory fsTwoRuns "w" "signal").Nodup :=
  c5_one_missing_entry_per_run fsTwoRuns "w" "signal" ["w/Events/run_01", "w/Events/run_02"]
    (by decide) (by decide) (by decide) (by decide) (by decide)

/-- Claim C6: a `signal_supp_*` directory is never itself a process
directory; its `morphing_basis_vector_*` children are, each displayed as
`<signal_supp_dir_name>/<morphing_dir_name>` — so a `signal_supp` tree
with exactly two morphing children yields exactly those two process
directories.  The hypothesis `hA` says the `signal_supp` path is
nonempty and does not end in a slash, which any glob result satisfies. -/
theorem c6_supp_expands_to_morphing_children (fs : FS) (mg A : String)
    (hsupp : fs.globMatch (os_path_join mg "signal_supp_*") = [A])
    (hmorph : fs.globMatch (os_path_join A "morphing_basis_vector_*")
        = [os_path_join A "morphing_basis_vector_1", os_path_join A "morphing_basis_vector_2"])
    (hsm : os_path_exists fs (os_path_join mg "signal_sm") = false)
    (hsmg : fs.globMatch (os_path_join mg "signal_sm_*") = [])
    (hA : A.data.reverse.headD '/' ≠ '/') :
    check_signal_directories fs mg
        = [os_path_join A "morphing_basis_vector_1", os_path_join A "morphing_basis_vector_2"]
    ∧ A ∉ check_signal_directories fs mg
    ∧ signal_process_name (os_path_join A "morphing_basis_vector_1")
        = os_path_basename A ++ "/" ++ "morphing_basis_vector_1"
    ∧ signal_process_name (os_path_join A "morphing_basis_vector_2")
        = os_path_basename A ++ "/" ++ "morphing_basis_vector_2" := by
  have hsig : check_signal_directories fs mg
      = [os_path_join A "morphing_basis_vector_1", os_path_join A "morphing_basis_vector_2"] := by
    simp [check_signal_directories, hsm, hsmg, hsupp, hmorph]
  have hlen : ∀ m : String, A ≠ os_path_join A m := by
    intro m heq
    have := congrArg String.length heq
    simp only [os_path_join, String.length_append,
      show ("/" : String).length = 1 from rfl] at this
    omega
  have hname : ∀ m : String, (∀ c ∈ m.data, (c == '/') = false) →
      str_contains (A ++ "/" ++ m) "morphing_basis_vector" = true →
      signal_process_name (os_path_join A m) = os_path_basename A ++ "/" ++ m := by
    intro m hm hc
    unfold signal_process_name os_path_join
    rw [hc]
    simp only [if_true]
    rw [basename_append A m hm, dirname_append A m hA hm]
  refine ⟨hsig, ?_, ?_, ?_⟩
  · rw [hsig]
    intro hmem
    rcases List.mem_cons.mp hmem with h | h
    · exact hlen _ h
    · rcases List.mem_singleton.mp h with h
      exact hlen _ h
  · exact hname "morphing_basis_vector_1" (by decide)
      (str_contains_append_left (A ++ "/") "morphing_basis_vector_1" "morphing_basis_vector"
        (by decide))
  · exact hname "morphing_basis_vector_2" (by decide)
      (str_contains_append_left (A ++ "/") "morphing_basis_vector_2" "morphing_basis_vector"
        (by decide))

/-- Claim C6 witness: the concrete `signal_supp_A` tree with two
morphing children. -/
theorem c6_witness :
    check_signal_directories fsSupp "m"
        = [os_path_join "m/signal_supp_A" "morphing_basis_vector_1",
           os_path_join "m/signal_supp_A" "morphing_basis_vector_2"]
    ∧ "m/signal_supp_A" ∉ check_signal_directories fsSupp "m"
    ∧ signal_process_name (os_path_join "m/signal_supp_A" "morphing_basis_vector_1")
        = os_path_basename "m/signal_supp_A" ++ "/" ++ "morphing_basis_vector_1"
    ∧ signal_process_name (os_path_join "m/signal_supp_A" "morphing_basis_vector_2")
        = os_path_basename "m/signal_supp_A" ++ "/" ++ "morphing_basis_vector_2" :=
  c6_supp_expands_to_morphing_children fsSupp "m" "m/signal_supp_A"
    (by decide) (by decide) (by decide) (by decide) (by decide)

/-- Claim C7: a missing primary signal root (`02_mg_processes`), or a
discovery yielding zero signal process directories, is fatal — the run
exits with status 1 and no process directory is handed to the
per-process file validation. -/
theorem c7_structural_absence_is_fatal (fs : FS) (config : Option String) (base_dir : String) :
    (os_path_exists fs (os_path_join base_dir "02_mg_processes") = false →
      main fs config base_dir = ⟨1, []⟩)
    ∧ (check_signal_directories fs (os_path_join base_dir "02_mg_processes") = [] →
      main fs config base_dir = ⟨1, []⟩) := by
  constructor
  · intro h
    cases config with
    | none => rfl
    | some p =>
      have hcd : check_directory_structure fs base_dir = false := by
        unfold check_directory_structure
        cases hb : os_path_exists fs base_dir <;> simp [h, hb]
      simp [main, hcd]
  · intro h
    cases config with
    | none => rfl
    | some p =>
      cases hcd : check_directory_structure fs base_dir with
      | false => simp [main, hcd]
      | true => simp [main, hcd, h]

/-- Claim C7 witness: an empty filesystem hits the fatal path. -/
theorem c7_witness :
    os_path_exists fsEmpty (os_path_join "nope" "02_mg_processes") = false
    ∧ main fsEmpty (some "din") "nope" = ⟨1, []⟩ :=
  ⟨by decide, (c7_structural_absence_is_fatal fsEmpty (some "din") "nope").1 (by decide)⟩

/-- Claim C8: a missing background root (`02_mg_processes_2`) yields zero
background process directories and does not abort the run: the signal
directories are still all checked and the verdict is still computed from
the per-process checks and the downstream-structure check. -/
theorem c8_missing_background_root_is_warning (fs : FS) (base_dir input_dir_pref : String)
    (hbg : os_path_exists fs (os_path_join base_dir "02_mg_processes_2") = false)
    (hstruct : check_directory_structure fs base_dir = true)
    (hsig : check_signal_directories fs (os_path_join base_dir "02_mg_processes") ≠ []) :
    check_background_directories fs (os_path_join base_dir "02_mg_processes_2") = []
    ∧ (main fs (some input_dir_pref) base_dir).checked
        = check_signal_directories fs (os_path_join base_dir "02_mg_processes")
    ∧ ((main fs (some input_dir_pref) base_dir).exitCode = 0 ↔
        (check_all_processes fs
            (check_signal_directories fs (os_path_join base_dir "02_mg_processes")) [] = true
         ∧ check_expected_structure_for_delphes fs input_dir_pref = true)) := by
  have hbgd : check_background_directories fs (os_path_join base_dir "02_mg_processes_2")
      = [] := by
    unfold check_background_directories
    simp [hbg]
  refine ⟨hbgd, ?_, ?_⟩
  · rw [main_reduce fs base_dir input_dir_pref hstruct hsig, hbgd]
    cases hc : (check_all_processes fs
        (check_signal_directories fs (os_path_join base_dir "02_mg_processes")) []
      && check_expected_structure_for_delphes fs input_dir_pref) <;> simp [hc]
  · rw [main_reduce fs base_dir input_dir_pref hstruct hsig, hbgd]
    cases hc : (check_all_processes fs
        (check_signal_directories fs (os_path_join base_dir "02_mg_processes")) []
      && check_expected_structure_for_delphes fs input_dir_pref) with
    | false =>
      refine iff_of_false (by simp) (fun hR => ?_)
      have hR' : (check_all_processes fs
          (check_signal_directories fs (os_path_join base_dir "02_mg_processes")) []
        && check_expected_structure_for_delphes fs input_dir_pref) = true := by
        rw [Bool.and_eq_true]
        exact hR
      rw [hc] at hR'
      exact Bool.false_ne_true hR'
    | true =>
      refine iff_of_true (by simp) ?_
      rw [Bool.and_eq_true] at hc
      exact hc

/-- Claim C8 witness: the healthy tree `fsGood` has no
`02_mg_processes_2`. -/
theorem c8_witness :
    check_background_directories fsGood (os_path_join "b" "02_mg_processes_2") = []
    ∧ (main fsGood (some "din") "b").checked
        = check_signal_directories fsGood (os_path_join "b" "02_mg_processes")
    ∧ ((main fsGood (some "din") "b").exitCode = 0 ↔
        (check_all_processes fsGood
            (check_signal_directories fsGood (os_path_join "b" "02_mg_processes")) [] = true
         ∧ check_expected_structure_for_delphes fsGood "din" = true)) :=
  c8_missing_background_root_is_warning fsGood "b" "din" (by decide) (by decide) (by decide)

/-- Claim C9: no `"<run_name>/<optional_file>"` entry ever appears in a
per-directory missing-item list: every entry is `"Events/"`,
`"Events/run_*"`, or a required-file entry, and none of those can end in
an optional file name. -/
theorem c9_optional_absence_never_recorded (fs : FS) (d t run_name opt : String)
    (hopt : opt ∈ optional_files) :
    (run_name ++ "/" ++ opt) ∉ check_required_files_in_directory fs d t := by
  intro hmem
  have hshape := mem_check_shape fs d t _ hmem
  have hoptcases : opt = "unweighted_events.lhe.gz" ∨ opt = "tag_1_pythia8_events.hepmc.gz"
      ∨ opt = "tag_1_pythia8_events_delphes.root" := by simpa [optional_files] using hopt
  have hstep : strLast (run_name ++ "/" ++ opt) = strLast ("/" ++ opt) := by
    rw [String.append_assoc]
    exact strLast_append run_name ("/" ++ opt)
      (by rcases hoptcases with rfl | rfl | rfl <;> decide)
  have hval : strLast ("/" ++ opt) = 'z' ∨ strLast ("/" ++ opt) = 't' := by
    rcases hoptcases with rfl | rfl | rfl
    · left; decide
    · left; decide
    · right; decide
  rcases hshape with h | h | ⟨r, h⟩
  · have hl := hstep.symm.trans (congrArg strLast h)
    rcases hval with hv | hv <;> rw [hv] at hl <;> exact absurd hl (by decide)
  · have hl := hstep.symm.trans (congrArg strLast h)
    rcases hval with hv | hv <;> rw [hv] at hl <;> exact absurd hl (by decide)
  · have h3 : strLast (os_path_basename r ++ "/" ++ "unweighted_events.lhe")
        = strLast ("/" ++ "unweighted_events.lhe") := by
      rw [String.append_assoc]
      exact strLast_append (os_path_basename r) ("/" ++ "unweighted_events.lhe") (by decide)
    have hl := hstep.symm.trans ((congrArg strLast h).trans h3)
    rcases hval with hv | hv <;> rw [hv] at hl <;> exact absurd hl (by decide)

/-- Claim C9 witness: the compressed event file never shows up as a miss
for the healthy signal process. -/
theorem c9_witness :
    ("run_01" ++ "/" ++ "unweighted_events.lhe.gz")
      ∉ check_required_files_in_directory fsGood "b/02_mg_processes/signal_sm" "signal" :=
  c9_optional_absence_never_recorded fsGood "b/02_mg_processes/signal_sm" "signal"
    "run_01" "unweighted_events.lhe.gz" (by decide)

/-- Claim C10: the per-directory check never consults its `process_type`
argument — the missing-item list is identical for any two argument
values, in particular for `"signal"` and `"background"`. -/
theorem c10_process_type_never_consulted (fs : FS) (process_dir t₁ t₂ : String) :
    check_required_files_in_directory fs process_dir t₁
      = check_required_files_in_directory fs process_dir t₂ := rfl

end CheckEvents
